import Mathlib

/-!
Verification of the koushin webmail front end (session handling, URL
parsing, login/logout handlers and error handling), shallowly embedded
from the Go source. External collaborators (net/url parsing, the IMAP
client library, the echo HTTP framework) are modelled as abstract inputs;
handler bodies are translated branch by branch from the source.
-/

namespace Koushin

/-- The session cookie name, `cookieName` in the source. -/
def cookieName : String := "koushin_session"

/-- `aLongTimeAgo = time.Unix(233431200, 0)`: a Unix timestamp far in the
past, used to expire (clear) the session cookie. -/
def aLongTimeAgo : Nat := 233431200

/-- Result of Go stdlib `url.Parse`: scheme and host components. The
parser itself is external (net/url); parse failure is the `Except.error`
case of the abstract parse function. -/
structure URL where
  scheme : String
  host : String
deriving Repr, DecidableEq

/-- The `imap` field group of `Server`: host, transport flags. The Go zero
value has empty host and false flags. (The `pool` pointer is modelled
separately as `ConnPool`.) -/
structure IMAPConfig where
  host : String := ""
  tls : Bool := false
  insecure : Bool := false
deriving Repr, DecidableEq

/-- The `smtp` field group of `Server`. -/
structure SMTPConfig where
  host : String := ""
  tls : Bool := false
  insecure : Bool := false
deriving Repr, DecidableEq

/-- The `Server` struct: IMAP and SMTP configuration. -/
structure Server where
  imap : IMAPConfig := {}
  smtp : SMTPConfig := {}
deriving Repr, DecidableEq

/-- The body of `(*Server).parseIMAPURL` after a successful `url.Parse`:
assigns `s.imap.host = u.Host`, then switches on the scheme: `imap`
plaintext, `imaps` sets tls, `imap+insecure` sets insecure, any other
scheme is an error. (In the source the host assignment textually precedes
the switch; on the error branch the mutated receiver is discarded by
`NewServer`, so inlining the assignment into the ok branches is
semantically identical.) -/
def imapURLSwitch (s : Server) (u : URL) : Except String Server :=
  match u.scheme with
  | "imap" => Except.ok { s with imap := { s.imap with host := u.host } }
  | "imaps" => Except.ok { s with imap := { s.imap with host := u.host, tls := true } }
  | "imap+insecure" =>
    Except.ok { s with imap := { s.imap with host := u.host, insecure := true } }
  | sch => Except.error ("unrecognized IMAP URL scheme: " ++ sch)

/-- `(*Server).parseIMAPURL`: takes the result of `url.Parse imapURL`
(`pu`); a parse failure is wrapped, otherwise the scheme switch runs. -/
def parseIMAPURL (s : Server) (pu : Except String URL) : Except String Server :=
  match pu with
  | Except.error e => Except.error ("failed to parse IMAP server URL: " ++ e)
  | Except.ok u => imapURLSwitch s u

/-- The body of `(*Server).parseSMTPURL` after a successful `url.Parse`:
same shape as the IMAP switch, with schemes `smtp`, `smtps`,
`smtp+insecure`. -/
def smtpURLSwitch (s : Server) (u : URL) : Except String Server :=
  match u.scheme with
  | "smtp" => Except.ok { s with smtp := { s.smtp with host := u.host } }
  | "smtps" => Except.ok { s with smtp := { s.smtp with host := u.host, tls := true } }
  | "smtp+insecure" =>
    Except.ok { s with smtp := { s.smtp with host := u.host, insecure := true } }
  | sch => Except.error ("unrecognized SMTP URL scheme: " ++ sch)

/-- `(*Server).parseSMTPURL`: takes the result of `url.Parse smtpURL`. -/
def parseSMTPURL (s : Server) (pu : Except String URL) : Except String Server :=
  match pu with
  | Except.error e => Except.error ("failed to parse SMTP server URL: " ++ e)
  | Except.ok u => smtpURLSwitch s u

/-- `NewServer(imapURL, smtpURL)`: builds a zero `Server`, parses the IMAP
URL (failing fast on error), then parses the SMTP URL only when `smtpURL`
is non-empty. `uparse` stands for the external `url.Parse`. (The
`s.imap.pool = NewConnPool()` line allocates the pool, modelled separately
and irrelevant to the configuration returned here.) -/
def NewServer (uparse : String → Except String URL) (imapURL smtpURL : String) :
    Except String Server :=
  match parseIMAPURL {} (uparse imapURL) with
  | Except.error e => Except.error e
  | Except.ok s =>
    if smtpURL ≠ "" then
      match parseSMTPURL s (uparse smtpURL) with
      | Except.error e => Except.error e
      | Except.ok s2 => Except.ok s2
    else
      Except.ok s

/-- An HTTP cookie as built by `setToken`: `expires = none` models the Go
zero `time.Time`, i.e. a session-scoped cookie; `some t` a concrete
expiry. -/
structure Cookie where
  name : String
  value : String
  httpOnly : Bool := false
  expires : Option Nat := none
deriving Repr, DecidableEq

/-- `(*context).setToken(token)`: builds the session cookie with
`HttpOnly` set and no expiry (session-scoped); when the token is the empty
string the cookie's expiry is set to `aLongTimeAgo` to unset it. This is
the cookie value passed to `c.SetCookie`. -/
def setToken (token : String) : Cookie :=
  let cookie : Cookie := { name := cookieName, value := token, httpOnly := true }
  if token = "" then { cookie with expires := some aLongTimeAgo } else cookie

/-- Errors returned by the connection pool. `sessionExpired` is
`ErrSessionExpired`; `other` covers any other (internal) pool error. -/
inductive PoolErr where
  | sessionExpired
  | other (msg : String)
deriving Repr, DecidableEq

/-- Modelled from the spec: the `Session` entry of the connection pool
(the pool's own source is not under src/; only its callers are). A token
maps to the live IMAP connection (abstract id), plus the cached
username/credential. -/
structure Session where
  username : String
  password : String
  imapConn : Nat
deriving Repr, DecidableEq

/-- Modelled from the spec: the `ConnPool` session store, a table from
token to `Session` entry with unique keys (an association list here). -/
structure ConnPool where
  entries : List (String × Session)
deriving Repr, DecidableEq

/-- Modelled from the spec: `NewConnPool()` — an empty store. -/
def NewConnPool : ConnPool := { entries := [] }

/-- Modelled from the spec: `Get(token)` — look up the entry by token; if
absent, fail with `SessionExpired` (also for tokens once valid but since
deleted or reaped). The liveness-probe/repair and per-entry locking steps
are concurrency behaviour outside this sequential model. -/
def ConnPool.Get (p : ConnPool) (token : String) : Except PoolErr Session :=
  match p.entries.lookup token with
  | none => Except.error PoolErr.sessionExpired
  | some sess => Except.ok sess

/-- Modelled from the spec: `Put(conn, username, password)` — register a
new entry under a freshly generated token (`tok` stands for the token
generator's output) and return the token; defensively reject a colliding
token as an internal pool error. -/
def ConnPool.Put (p : ConnPool) (tok : String) (conn : Nat)
    (username password : String) : Except PoolErr (ConnPool × String) :=
  match p.entries.lookup tok with
  | some _ => Except.error (PoolErr.other "token collision")
  | none =>
    Except.ok ({ entries := (tok, ⟨username, password, conn⟩) :: p.entries }, tok)

/-- Modelled from the spec: `Delete(token)` — remove the entry under the
token, if present. -/
def ConnPool.Delete (p : ConnPool) (tok : String) : ConnPool :=
  { entries := p.entries.filter (fun e => e.1 ≠ tok) }

/-- Observable events of the login handler, in program order: the IMAP
dial, the protocol `Login` call, `conn.Logout()`, `pool.Put`, setting the
cookie, rendering a template, redirecting, or returning an error to the
HTTP layer. -/
inductive Ev where
  | dial
  | loginCall (username password : String)
  | logout
  | putCall (username password : String)
  | setCookie (c : Cookie)
  | render (tmpl : String)
  | redirect (code : Nat) (loc : String)
  | fail (e : String)
deriving Repr, DecidableEq

/-- `handleLogin`: translated branch by branch from the source. Reads the
`username` and `password` form values; only when both are non-empty does
it dial (`connectIMAP`, outcome `dialRes`), attempt the protocol login
(outcome `loginRes`), and on success `Put` the connection into the pool
(outcome `putRes`), set the token cookie and redirect to the INBOX. A
rejected login logs the connection out and re-renders the login page; a
failed `Put` is wrapped and returned as an error. With an empty username
or password it just renders the login page. Returns the trace of events in
program order. -/
def handleLogin (username password : String) (dialRes : Except String Unit)
    (loginRes : Except String Unit) (putRes : Except String String) : List Ev :=
  if username ≠ "" ∧ password ≠ "" then
    match dialRes with
    | Except.error e => [Ev.dial, Ev.fail e]
    | Except.ok _ =>
      match loginRes with
      | Except.error _ =>
        [Ev.dial, Ev.loginCall username password, Ev.logout, Ev.render "login.html"]
      | Except.ok _ =>
        match putRes with
        | Except.error e =>
          [Ev.dial, Ev.loginCall username password, Ev.putCall username password,
           Ev.fail ("failed to put connection in pool: " ++ e)]
        | Except.ok token =>
          [Ev.dial, Ev.loginCall username password, Ev.putCall username password,
           Ev.setCookie (setToken token), Ev.redirect 302 "/mailbox/INBOX"]
  else
    [Ev.render "login.html"]

/-- Observable events of the logout handler: the `conn.Logout()` call with
its outcome, returning an error to the HTTP layer, setting the cookie,
redirecting. -/
inductive LogoutEv where
  | connLogout (errMsg : Option String)
  | fail (e : String)
  | setCookie (c : Cookie)
  | redirect (code : Nat) (loc : String)
deriving Repr, DecidableEq

/-- The `GET /logout` handler closure: calls `ctx.conn.Logout()`; on error
returns `failed to logout: ...` to the HTTP layer; otherwise clears the
cookie via `setToken("")` and redirects to `/login`. The handler has the
server's pool in scope (`ctx.server.imap.pool`) but never touches it, so
the pool is returned unchanged. -/
def handleLogout (pool : ConnPool) (logoutRes : Except String Unit) :
    ConnPool × List LogoutEv :=
  match logoutRes with
  | Except.error e =>
    (pool, [LogoutEv.connLogout (some e), LogoutEv.fail ("failed to logout: " ++ e)])
  | Except.ok _ =>
    (pool, [LogoutEv.connLogout none, LogoutEv.setCookie (setToken ""),
            LogoutEv.redirect 302 "/login"])

/-- Result of `ctx.Cookie(cookieName)`: `noCookie` is `http.ErrNoCookie`,
`otherErr` any other cookie-retrieval error, `found` a present cookie. -/
inductive CookieRes where
  | noCookie
  | otherErr (e : String)
  | found (c : Cookie)
deriving Repr, DecidableEq

/-- Outcome of the session middleware for one request. -/
inductive MwResult where
  | nextNoSession
  | next (sess : Session)
  | redirectLogin (cookieCleared : Bool)
  | cookieErr (e : String)
  | getErr (msg : String)
deriving Repr, DecidableEq

/-- The middleware closure installed by `New` via `e.Use`: with no cookie,
`/login` passes through and any other path redirects to `/login`; another
cookie error is returned. With a cookie, `pool.Get(cookie.Value)` is
called: `ErrSessionExpired` clears the cookie (`setToken("")`) and
redirects to `/login`; any other error is returned; on success the request
is dispatched to the next handler with the resolved session (whose
`imapConn` becomes `ctx.conn`). -/
def middleware (pool : ConnPool) (cres : CookieRes) (path : String) : MwResult :=
  match cres with
  | CookieRes.noCookie =>
    if path = "/login" then MwResult.nextNoSession
    else MwResult.redirectLogin false
  | CookieRes.otherErr e => MwResult.cookieErr e
  | CookieRes.found cookie =>
    match pool.Get cookie.value with
    | Except.error PoolErr.sessionExpired => MwResult.redirectLogin true
    | Except.error (PoolErr.other msg) => MwResult.getErr msg
    | Except.ok sess => MwResult.next sess

/-- An error value reaching the HTTP layer: `httpCode = some c` when it is
an `*echo.HTTPError` with code `c`, `none` otherwise; `message` is the
`err.Error()` string. -/
structure GoErr where
  httpCode : Option Nat := none
  message : String
deriving Repr, DecidableEq

/-- The response produced by the error handler: whether the error was
logged, the status code, and the body text sent to the client. -/
structure ErrResponse where
  logged : Bool
  code : Nat
  body : String
deriving Repr, DecidableEq

/-- The `e.HTTPErrorHandler` closure from `New`: status 500 unless the
error is an `*echo.HTTPError` (then its code); only non-HTTPError errors
are logged; the response body is `err.Error()` verbatim
(`c.String(code, err.Error())`). -/
def HTTPErrorHandler (err : GoErr) : ErrResponse :=
  match err.httpCode with
  | some c => { logged := false, code := c, body := err.message }
  | none => { logged := true, code := 500, body := err.message }

/-! ## Helper lemmas -/

theorem lookup_filter_ne (l : List (String × Session)) (t : String) :
    List.lookup t (l.filter (fun e => e.1 ≠ t)) = none := by
  induction l with
  | nil => rfl
  | cons hd tl ih =>
    obtain ⟨k, v⟩ := hd
    by_cases h : k = t
    · have hfil : List.filter (fun e => decide (e.1 ≠ t)) ((k, v) :: tl)
          = List.filter (fun e => decide (e.1 ≠ t)) tl := by
        simp [List.filter_cons, h]
      rw [hfil]
      exact ih
    · have hfil : List.filter (fun e => decide (e.1 ≠ t)) ((k, v) :: tl)
          = (k, v) :: List.filter (fun e => decide (e.1 ≠ t)) tl := by
        simp [List.filter_cons, h]
      have hbeq : (t == k) = false := by
        simp only [beq_eq_false_iff_ne]
        exact fun hc => h hc.symm
      rw [hfil]
      simp only [List.lookup, hbeq]
      exact ih

theorem imapURLSwitch_bad_scheme (s : Server) (u : URL)
    (h1 : u.scheme ≠ "imap") (h2 : u.scheme ≠ "imaps") (h3 : u.scheme ≠ "imap+insecure") :
    imapURLSwitch s u = Except.error ("unrecognized IMAP URL scheme: " ++ u.scheme) := by
  unfold imapURLSwitch
  split
  next heq => exact absurd heq h1
  next heq => exact absurd heq h2
  next heq => exact absurd heq h3
  next => rfl

theorem smtpURLSwitch_bad_scheme (s : Server) (u : URL)
    (h1 : u.scheme ≠ "smtp") (h2 : u.scheme ≠ "smtps") (h3 : u.scheme ≠ "smtp+insecure") :
    smtpURLSwitch s u = Except.error ("unrecognized SMTP URL scheme: " ++ u.scheme) := by
  unfold smtpURLSwitch
  split
  next heq => exact absurd heq h1
  next heq => exact absurd heq h2
  next heq => exact absurd heq h3
  next => rfl

theorem parseIMAPURL_smtp_eq (s : Server) (pu : Except String URL) (s2 : Server)
    (h : parseIMAPURL s pu = Except.ok s2) : s2.smtp = s.smtp := by
  cases pu with
  | error e => exact absurd h (by simp [parseIMAPURL])
  | ok u =>
    have h2 : imapURLSwitch s u = Except.ok s2 := h
    unfold imapURLSwitch at h2
    split at h2 <;> first
      | (injection h2 with h3; subst h3; rfl)
      | exact absurd h2 (by simp)

theorem parseIMAPURL_ok (s : Server) (u : URL) :
    parseIMAPURL s (Except.ok u) = imapURLSwitch s u := rfl

theorem parseSMTPURL_ok (s : Server) (u : URL) :
    parseSMTPURL s (Except.ok u) = smtpURLSwitch s u := rfl

/-- A concrete stand-in for `url.Parse`, used to instantiate theorems that
quantify over the external URL parser. -/
def uparseDemo (str : String) : Except String URL :=
  if str = "imap://mail.example.org" then Except.ok ⟨"imap", "mail.example.org"⟩
  else if str = "imaps://mail.example.org" then Except.ok ⟨"imaps", "mail.example.org"⟩
  else if str = "ftp://mail.example.org" then Except.ok ⟨"ftp", "mail.example.org"⟩
  else Except.error "net/url: invalid control character in URL"

/-! ## Claim theorems -/

/-- C6: the transport-mode parsers accept exactly the three modes —
plaintext (`imap`/`smtp`), TLS (`imaps`/`smtps`) and TLS with relaxed
certificate verification (`imap+insecure`/`smtp+insecure`) — setting the
corresponding tls/insecure flags, and return an error for any other
scheme, in which case `NewServer` returns an error and no server. -/
theorem transport_modes (s : Server) (u : URL) :
    (u.scheme = "imap" → parseIMAPURL s (Except.ok u) =
      Except.ok { s with imap := { s.imap with host := u.host } }) ∧
    (u.scheme = "imaps" → parseIMAPURL s (Except.ok u) =
      Except.ok { s with imap := { s.imap with host := u.host, tls := true } }) ∧
    (u.scheme = "imap+insecure" → parseIMAPURL s (Except.ok u) =
      Except.ok { s with imap := { s.imap with host := u.host, insecure := true } }) ∧
    (u.scheme ∉ (["imap", "imaps", "imap+insecure"] : List String) →
      parseIMAPURL s (Except.ok u) =
        Except.error ("unrecognized IMAP URL scheme: " ++ u.scheme)) ∧
    (u.scheme = "smtp" → parseSMTPURL s (Except.ok u) =
      Except.ok { s with smtp := { s.smtp with host := u.host } }) ∧
    (u.scheme = "smtps" → parseSMTPURL s (Except.ok u) =
      Except.ok { s with smtp := { s.smtp with host := u.host, tls := true } }) ∧
    (u.scheme = "smtp+insecure" → parseSMTPURL s (Except.ok u) =
      Except.ok { s with smtp := { s.smtp with host := u.host, insecure := true } }) ∧
    (u.scheme ∉ (["smtp", "smtps", "smtp+insecure"] : List String) →
      parseSMTPURL s (Except.ok u) =
        Except.error ("unrecognized SMTP URL scheme: " ++ u.scheme)) ∧
    (∀ uparse imapURL smtpURL, uparse imapURL = Except.ok u →
      u.scheme ∉ (["imap", "imaps", "imap+insecure"] : List String) →
      NewServer uparse imapURL smtpURL =
        Except.error ("unrecognized IMAP URL scheme: " ++ u.scheme)) := by
  obtain ⟨sch, host⟩ := u
  refine ⟨?_, ?_, ?_, ?_, ?_, ?_, ?_, ?_, ?_⟩
  · intro h; dsimp only at h; subst h; rfl
  · intro h; dsimp only at h; subst h; rfl
  · intro h; dsimp only at h; subst h; rfl
  · intro h
    simp only [List.mem_cons, List.not_mem_nil, or_false, not_or] at h
    exact imapURLSwitch_bad_scheme s ⟨sch, host⟩ h.1 h.2.1 h.2.2
  · intro h; dsimp only at h; subst h; rfl
  · intro h; dsimp only at h; subst h; rfl
  · intro h; dsimp only at h; subst h; rfl
  · intro h
    simp only [List.mem_cons, List.not_mem_nil, or_false, not_or] at h
    exact smtpURLSwitch_bad_scheme s ⟨sch, host⟩ h.1 h.2.1 h.2.2
  · intro uparse imapURL smtpURL hup h
    simp only [List.mem_cons, List.not_mem_nil, or_false, not_or] at h
    unfold NewServer
    rw [hup, parseIMAPURL_ok, imapURLSwitch_bad_scheme _ _ h.1 h.2.1 h.2.2]

theorem transport_modes_witness :
    parseIMAPURL {} (Except.ok ⟨"imaps", "mail.example.org"⟩) =
      Except.ok { imap := { host := "mail.example.org", tls := true } } ∧
    NewServer uparseDemo "ftp://mail.example.org" "" =
      Except.error "unrecognized IMAP URL scheme: ftp" :=
  ⟨(transport_modes {} ⟨"imaps", "mail.example.org"⟩).2.1 rfl,
   (transport_modes {} ⟨"ftp", "mail.example.org"⟩).2.2.2.2.2.2.2.2
     uparseDemo "ftp://mail.example.org" "" rfl (by decide)⟩

/-- C10: `NewServer` with an empty smtpURL succeeds with the SMTP
configuration left at its zero value (SMTP optional); it returns an error
and no server whenever the imapURL, or a non-empty smtpURL, fails to parse
or has an unrecognized scheme. -/
theorem newServer_smtp_optional (uparse : String → Except String URL)
    (imapURL smtpURL : String) :
    (∀ s, parseIMAPURL {} (uparse imapURL) = Except.ok s →
      NewServer uparse imapURL "" = Except.ok s ∧ s.smtp = {}) ∧
    (∀ e, uparse imapURL = Except.error e →
      NewServer uparse imapURL smtpURL =
        Except.error ("failed to parse IMAP server URL: " ++ e)) ∧
    (∀ u, uparse imapURL = Except.ok u →
      u.scheme ∉ (["imap", "imaps", "imap+insecure"] : List String) →
      NewServer uparse imapURL smtpURL =
        Except.error ("unrecognized IMAP URL scheme: " ++ u.scheme)) ∧
    (smtpURL ≠ "" → ∀ s e, parseIMAPURL {} (uparse imapURL) = Except.ok s →
      uparse smtpURL = Except.error e →
      NewServer uparse imapURL smtpURL =
        Except.error ("failed to parse SMTP server URL: " ++ e)) ∧
    (smtpURL ≠ "" → ∀ s u, parseIMAPURL {} (uparse imapURL) = Except.ok s →
      uparse smtpURL = Except.ok u →
      u.scheme ∉ (["smtp", "smtps", "smtp+insecure"] : List String) →
      NewServer uparse imapURL smtpURL =
        Except.error ("unrecognized SMTP URL scheme: " ++ u.scheme)) := by
  refine ⟨?_, ?_, ?_, ?_, ?_⟩
  · intro s hok
    constructor
    · unfold NewServer
      rw [hok]
      simp
    · exact parseIMAPURL_smtp_eq {} (uparse imapURL) s hok
  · intro e he
    unfold NewServer
    rw [he]
    rfl
  · intro u hup h
    simp only [List.mem_cons, List.not_mem_nil, or_false, not_or] at h
    unfold NewServer
    rw [hup, parseIMAPURL_ok, imapURLSwitch_bad_scheme _ _ h.1 h.2.1 h.2.2]
  · intro hne s e hok he
    unfold NewServer
    rw [hok]
    simp only [hne, ne_eq, not_false_iff, if_true]
    rw [he]
    rfl
  · intro hne s u hok hup h
    simp only [List.mem_cons, List.not_mem_nil, or_false, not_or] at h
    unfold NewServer
    rw [hok]
    simp only [hne, ne_eq, not_false_iff, if_true]
    rw [hup, parseSMTPURL_ok, smtpURLSwitch_bad_scheme _ _ h.1 h.2.1 h.2.2]

theorem newServer_smtp_optional_witness :
    NewServer uparseDemo "imap://mail.example.org" "" =
      Except.ok { imap := { host := "mail.example.org" } } ∧
    ({ imap := { host := "mail.example.org" } } : Server).smtp = {} :=
  (newServer_smtp_optional uparseDemo "imap://mail.example.org" "").1
    { imap := { host := "mail.example.org" } } rfl

/-- A concrete pool with one live session, used to instantiate theorems. -/
def poolDemo : ConnPool := { entries := [("t1", ⟨"alice", "secret", 0⟩)] }

/-- C9: with an empty username or password form value, `handleLogin` dials
no IMAP connection, attempts no protocol login, creates no pool entry,
sets no cookie, and just renders the login page. -/
theorem login_empty_fields (username password : String)
    (dialRes loginRes : Except String Unit) (putRes : Except String String)
    (h : username = "" ∨ password = "") :
    handleLogin username password dialRes loginRes putRes = [Ev.render "login.html"] ∧
    Ev.dial ∉ handleLogin username password dialRes loginRes putRes ∧
    (∀ u2 p2, Ev.loginCall u2 p2 ∉ handleLogin username password dialRes loginRes putRes) ∧
    (∀ u2 p2, Ev.putCall u2 p2 ∉ handleLogin username password dialRes loginRes putRes) ∧
    (∀ c, Ev.setCookie c ∉ handleLogin username password dialRes loginRes putRes) := by
  have hcond : ¬(username ≠ "" ∧ password ≠ "") := by
    rcases h with h | h
    · exact fun hc => hc.1 h
    · exact fun hc => hc.2 h
  have htr : handleLogin username password dialRes loginRes putRes
      = [Ev.render "login.html"] := by
    unfold handleLogin
    rw [if_neg hcond]
  refine ⟨htr, ?_, ?_, ?_, ?_⟩
  · rw [htr]; simp
  · intro u2 p2; rw [htr]; simp
  · intro u2 p2; rw [htr]; simp
  · intro c; rw [htr]; simp

theorem login_empty_fields_witness :
    handleLogin "" "secret" (Except.ok ()) (Except.ok ()) (Except.ok "t1") =
      [Ev.render "login.html"] :=
  (login_empty_fields "" "secret" (Except.ok ()) (Except.ok ())
    (Except.ok "t1") (Or.inl rfl)).1

/-- C3: when the protocol `Login` is rejected, `handleLogin` logs the
half-open connection out before reporting the failure, re-renders the
login page (an invalid login, not an error propagated to the HTTP layer),
and creates no pool entry. -/
theorem login_rejected_teardown (username password e : String)
    (putRes : Except String String) (hu : username ≠ "") (hp : password ≠ "") :
    handleLogin username password (Except.ok ()) (Except.error e) putRes =
      [Ev.dial, Ev.loginCall username password, Ev.logout, Ev.render "login.html"] ∧
    (∀ u2 p2, Ev.putCall u2 p2 ∉
      handleLogin username password (Except.ok ()) (Except.error e) putRes) ∧
    (∀ msg, Ev.fail msg ∉
      handleLogin username password (Except.ok ()) (Except.error e) putRes) ∧
    (∀ c, Ev.setCookie c ∉
      handleLogin username password (Except.ok ()) (Except.error e) putRes) := by
  have htr : handleLogin username password (Except.ok ()) (Except.error e) putRes =
      [Ev.dial, Ev.loginCall username password, Ev.logout, Ev.render "login.html"] := by
    unfold handleLogin
    rw [if_pos ⟨hu, hp⟩]
  refine ⟨htr, ?_, ?_, ?_⟩
  · intro u2 p2; rw [htr]; simp
  · intro msg; rw [htr]; simp
  · intro c; rw [htr]; simp

theorem login_rejected_teardown_witness :
    handleLogin "alice" "secret" (Except.ok ()) (Except.error "NO invalid credentials")
      (Except.ok "t1") =
      [Ev.dial, Ev.loginCall "alice" "secret", Ev.logout, Ev.render "login.html"] :=
  (login_rejected_teardown "alice" "secret" "NO invalid credentials"
    (Except.ok "t1") (by decide) (by decide)).1

/-- C4: on successful login, `handleLogin` `Put`s the connection into the
pool, obtains a token, and sets an `HttpOnly`, session-scoped (no expiry)
cookie holding the token before redirecting; clearing (`setToken ""`)
writes the cookie with the already-expired timestamp `aLongTimeAgo`. -/
theorem login_success_cookie (username password tok : String)
    (hu : username ≠ "") (hp : password ≠ "") (ht : tok ≠ "") :
    handleLogin username password (Except.ok ()) (Except.ok ()) (Except.ok tok) =
      [Ev.dial, Ev.loginCall username password, Ev.putCall username password,
       Ev.setCookie { name := cookieName, value := tok, httpOnly := true, expires := none },
       Ev.redirect 302 "/mailbox/INBOX"] ∧
    setToken "" = { name := cookieName, value := "", httpOnly := true,
                    expires := some aLongTimeAgo } := by
  have hc : setToken tok =
      { name := cookieName, value := tok, httpOnly := true, expires := none } := by
    simp only [setToken]
    rw [if_neg ht]
  constructor
  · unfold handleLogin
    rw [if_pos ⟨hu, hp⟩]
    dsimp only
    rw [hc]
  · rfl

theorem login_success_cookie_witness :
    handleLogin "alice" "secret" (Except.ok ()) (Except.ok ()) (Except.ok "t1") =
      [Ev.dial, Ev.loginCall "alice" "secret", Ev.putCall "alice" "secret",
       Ev.setCookie { name := cookieName, value := "t1", httpOnly := true, expires := none },
       Ev.redirect 302 "/mailbox/INBOX"] :=
  (login_success_cookie "alice" "secret" "t1" (by decide) (by decide) (by decide)).1

/-- C5 (code bug): the error handler sends `err.Error()` verbatim as the
response body — internal detail reaches the client — and logs only
non-HTTPError errors, contradicting the stated policy (the source carries
a `TODO: hide internal errors`). Evaluated at a concrete internal error
and at a concrete HTTPError. -/
theorem error_detail_exposed :
    HTTPErrorHandler { message := "failed to put connection in pool: out of memory" } =
      { logged := true, code := 500,
        body := "failed to put connection in pool: out of memory" } ∧
    HTTPErrorHandler { httpCode := some 403, message := "sasl: authentication failed" } =
      { logged := false, code := 403, body := "sasl: authentication failed" } :=
  ⟨rfl, rfl⟩

/-- C7: a token absent from the store — never issued, or issued and since
deleted — makes `Get` return `SessionExpired`; the deleted case returns
the very same error value, so the caller cannot distinguish the two. -/
theorem get_unknown_token_expired (p : ConnPool) (t t2 : String)
    (h : List.lookup t p.entries = none) :
    ConnPool.Get p t = Except.error PoolErr.sessionExpired ∧
    ConnPool.Get (ConnPool.Delete p t2) t2 = Except.error PoolErr.sessionExpired := by
  constructor
  · unfold ConnPool.Get
    rw [h]
  · unfold ConnPool.Get ConnPool.Delete
    dsimp only
    rw [lookup_filter_ne]

theorem get_unknown_token_expired_witness :
    ConnPool.Get poolDemo "t9" = Except.error PoolErr.sessionExpired ∧
    ConnPool.Get (ConnPool.Delete poolDemo "t1") "t1" =
      Except.error PoolErr.sessionExpired :=
  get_unknown_token_expired poolDemo "t9" "t1" rfl

/-- C1: with a session cookie present, the middleware resolves the session
by calling the pool's `Get` on the cookie's value: if `Get` returns
`SessionExpired` it clears the cookie and redirects to `/login` (never
dispatching to the page handler), and it dispatches to the page handler
only with the session that `Get` returned. -/
theorem middleware_session_expired (pool : ConnPool) (c : Cookie) (path : String) :
    (ConnPool.Get pool c.value = Except.error PoolErr.sessionExpired →
      middleware pool (CookieRes.found c) path = MwResult.redirectLogin true) ∧
    (∀ sess, middleware pool (CookieRes.found c) path = MwResult.next sess →
      ConnPool.Get pool c.value = Except.ok sess) := by
  constructor
  · intro h
    simp only [middleware]
    rw [h]
  · intro sess h
    simp only [middleware] at h
    cases hg : ConnPool.Get pool c.value with
    | error pe =>
      rw [hg] at h
      cases pe <;> simp at h
    | ok s2 =>
      rw [hg] at h
      simp at h
      rw [h]

theorem middleware_session_expired_witness :
    middleware poolDemo (CookieRes.found { name := cookieName, value := "t9" })
      "/mailbox/INBOX" = MwResult.redirectLogin true :=
  (middleware_session_expired poolDemo { name := cookieName, value := "t9" }
    "/mailbox/INBOX").1 rfl

/-- C2 counterexample: at a pool holding session "t1" and a failing
`conn.Logout()`, the logout handler leaves the pool untouched — the token
still resolves afterwards (no `Delete` call) — and it returns the logout
failure to the HTTP layer as a user-facing error, refuting the claim. -/
theorem logout_claim_counterexample :
    ConnPool.Get (handleLogout poolDemo (Except.error "connection reset")).1 "t1" =
      Except.ok ⟨"alice", "secret", 0⟩ ∧
    LogoutEv.fail ("failed to logout: " ++ "connection reset") ∈
      (handleLogout poolDemo (Except.error "connection reset")).2 := by
  constructor
  · rfl
  · simp [handleLogout]

/-- C2 (amended): the logout handler logs out the underlying connection
and propagates a logout failure to the HTTP layer as an error; only on
success does it clear the cookie and redirect to `/login`; it never calls
the pool's `Delete`, so the pool is unchanged and the token still resolves
until reaped. -/
theorem logout_behavior (pool : ConnPool) (res : Except String Unit) :
    (handleLogout pool res).1 = pool ∧
    (∀ e, res = Except.error e →
      (handleLogout pool res).2 =
        [LogoutEv.connLogout (some e), LogoutEv.fail ("failed to logout: " ++ e)]) ∧
    (res = Except.ok () →
      (handleLogout pool res).2 =
        [LogoutEv.connLogout none, LogoutEv.setCookie (setToken ""),
         LogoutEv.redirect 302 "/login"]) := by
  refine ⟨?_, ?_, ?_⟩
  · cases res <;> rfl
  · intro e he
    rw [he]
    rfl
  · intro hok
    rw [hok]
    rfl

theorem logout_behavior_witness :
    (handleLogout poolDemo (Except.error "connection reset")).1 = poolDemo ∧
    (handleLogout poolDemo (Except.error "connection reset")).2 =
      [LogoutEv.connLogout (some "connection reset"),
       LogoutEv.fail ("failed to logout: " ++ "connection reset")] :=
  ⟨(logout_behavior poolDemo (Except.error "connection reset")).1,
   (logout_behavior poolDemo (Except.error "connection reset")).2.1
     "connection reset" rfl⟩

end Koushin
